import Mathlib

/-!
Verification of the checkmate flight-game core against its specification.

The development shallowly embeds the algorithmic core of the repository:
the pan-orbit camera input mapper (`src/camera/panorbit.rs`), the camera
rig controller (`src/camera.rs`), the animation sequencing state machine
(`src/state/ingame/animation.rs`) and the aircraft thrust model
(`src/state/ingame/aircraft.rs`).  Floating-point scalars are embedded as
exact rationals; the engine math library's quaternions (an external
dependency) are abstracted by an operation interface `RotOps`, and
external numeric routines (square roots, look-at rotations) are passed as
oracle parameters, so every theorem holds for the actual implementations.
-/

namespace Checkmate

/-- Two-dimensional vector over exact rationals (embeds glam/bevy `Vec2`). -/
structure Vec2 where
  x : ℚ
  y : ℚ
deriving DecidableEq

instance : Add Vec2 where
  add a b := ⟨a.x + b.x, a.y + b.y⟩

instance : Zero Vec2 where
  zero := ⟨0, 0⟩

/-- Squared length of a `Vec2`, as in `Vec2::length_squared`. -/
def Vec2.length_sq (v : Vec2) : ℚ :=
  v.x * v.x + v.y * v.y

/-- Three-dimensional vector over exact rationals (embeds glam/bevy `Vec3`). -/
structure Vec3 where
  x : ℚ
  y : ℚ
  z : ℚ
deriving DecidableEq

instance : Add Vec3 where
  add a b := ⟨a.x + b.x, a.y + b.y, a.z + b.z⟩

instance : Sub Vec3 where
  sub a b := ⟨a.x - b.x, a.y - b.y, a.z - b.z⟩

instance : Zero Vec3 where
  zero := ⟨0, 0, 0⟩

/-- Scalar multiple of a `Vec3` (embeds `v * c` on glam vectors). -/
def Vec3.scale (c : ℚ) (v : Vec3) : Vec3 :=
  ⟨c * v.x, c * v.y, c * v.z⟩

/-- Squared length of a `Vec3`, as in `Vec3::length_squared`. -/
def Vec3.length_sq (v : Vec3) : ℚ :=
  v.x * v.x + v.y * v.y + v.z * v.z

/-- Interface to the engine math library's rotations (bevy `Quat`), which is
an external dependency of the repository: exactly the operations the game
code uses, together with the identity law (`Quat::IDENTITY * q = q`) that
holds for real quaternions.  Angle arguments of `fromRotY` / `fromRotX` are
measured in units of π radians so that the factor `std::f32::consts::PI`
appearing in the source stays exact over ℚ; both constructors are otherwise
opaque, so no theorem below depends on this convention. -/
structure RotOps (Q : Type) where
  mul : Q → Q → Q
  one : Q
  inv : Q → Q
  act : Q → Vec3 → Vec3
  fromRotY : ℚ → Q
  fromRotX : ℚ → Q
  one_mul : ∀ q : Q, mul one q = q

/-- Degenerate instance of the rotation interface, used to instantiate
universally quantified theorems on concrete inputs. -/
def trivialRot : RotOps Unit where
  mul _ _ := ()
  one := ()
  inv _ := ()
  act _ v := v
  fromRotY _ := ()
  fromRotX _ := ()
  one_mul _ := rfl

/-- Entity transform: the translation and rotation parts of bevy
`Transform` used by the embedded systems (scale is never touched). -/
structure Transform (Q : Type) where
  translation : Vec3
  rotation : Q

/-- Camera state component, from `PanOrbitCamera` in
`src/camera/panorbit.rs` (the two mouse-button fields are represented by
the per-frame button snapshots in `Frame`). -/
structure PanOrbitCamera where
  focus : Vec3
  radius : ℚ
  upside_down : Bool

/-- One frame's worth of input, as read by `update_input` in
`src/camera/panorbit.rs`: the states of the camera's orbit and pan mouse
buttons, the mouse motion events, the scroll wheel events, the primary
window size, and the perspective projection parameters
(field of view, aspect) when the projection is perspective. -/
structure Frame where
  orbit_pressed : Bool
  pan_pressed : Bool
  orbit_just_pressed : Bool
  orbit_just_released : Bool
  motions : List Vec2
  wheels : List ℚ
  window : Vec2
  perspective : Option (ℚ × ℚ)

/-- Accumulated orbit rotation delta of one frame: motion events are summed
into `rotation_move` only while the orbit button is pressed
(`src/camera/panorbit.rs:83-86`). -/
def accum_rotation (f : Frame) : Vec2 :=
  if f.orbit_pressed then f.motions.foldl (· + ·) 0 else 0

/-- Accumulated pan delta of one frame: motion events are summed into `pan`
only while the pan button is pressed and the orbit button is not
(`src/camera/panorbit.rs:87-92`). -/
def accum_pan (f : Frame) : Vec2 :=
  if f.orbit_pressed then 0
  else if f.pan_pressed then f.motions.foldl (· + ·) 0 else 0

/-- Accumulated scroll delta of one frame: wheel events are always summed
(`src/camera/panorbit.rs:93-95`). -/
def accum_scroll (f : Frame) : ℚ :=
  f.wheels.foldl (· + ·) 0

/-- Transform reconstruction `translation = focus + rotation * (0,0,radius)`.
This is the inline tail of `update_input` (`src/camera/panorbit.rs:149-150`)
and also the body of `PanOrbitCamera::update_position` called by
`follow_move`; the method itself is not under `src/`, and is modelled from
the spec's position-reconstruction formula (§4.1), which coincides with the
inline code. -/
def update_position {Q : Type} (R : RotOps Q) (focus : Vec3) (radius : ℚ)
    (transform : Transform Q) : Transform Q :=
  { transform with translation := focus + R.act transform.rotation ⟨0, 0, radius⟩ }

/-- One step of the camera input mapper `update_input`
(`src/camera/panorbit.rs:68-157`) for one camera: refresh the upside-down
flag on orbit-button edges, then apply exactly one of orbit / pan / zoom
(in that priority order), and finally rebuild the camera translation if
anything happened.  The literals `0.2` and `0.05` are `1/5` and `1/20`. -/
def update_input {Q : Type} (R : RotOps Q) (f : Frame)
    (camera : PanOrbitCamera) (transform : Transform Q) :
    PanOrbitCamera × Transform Q :=
  let rotation_move := accum_rotation f
  let pan0 := accum_pan f
  let scroll := accum_scroll f
  let orbit_button_changed := f.orbit_just_released || f.orbit_just_pressed
  let camera :=
    if orbit_button_changed then
      { camera with upside_down := decide ((R.act transform.rotation ⟨0, 1, 0⟩).y ≤ 0) }
    else camera
  if 0 < rotation_move.length_sq then
    let delta_x0 := rotation_move.x / f.window.x * 2
    let delta_x := if camera.upside_down then -delta_x0 else delta_x0
    let delta_y := rotation_move.y / f.window.y
    let yaw := R.fromRotY (-delta_x)
    let pitch := R.fromRotX (-delta_y)
    let transform := { transform with rotation := R.mul (R.mul yaw transform.rotation) pitch }
    (camera, update_position R camera.focus camera.radius transform)
  else if 0 < pan0.length_sq then
    let pan :=
      match f.perspective with
      | some (fov, aspect) => Vec2.mk (pan0.x * (fov * aspect) / f.window.x) (pan0.y * fov / f.window.y)
      | none => pan0
    let right := Vec3.scale (-pan.x) (R.act transform.rotation ⟨1, 0, 0⟩)
    let up := Vec3.scale pan.y (R.act transform.rotation ⟨0, 1, 0⟩)
    let translation := Vec3.scale camera.radius (right + up)
    let camera := { camera with focus := camera.focus + translation }
    (camera, update_position R camera.focus camera.radius transform)
  else if 0 < |scroll| then
    let camera := { camera with radius := camera.radius - scroll * camera.radius * (1/5) }
    let camera := { camera with radius := max camera.radius (1/20) }
    (camera, update_position R camera.focus camera.radius transform)
  else
    (camera, transform)

/-- Iterated camera input update over a sequence of input frames. -/
def update_input_seq {Q : Type} (R : RotOps Q) (frames : List Frame)
    (camera : PanOrbitCamera) (transform : Transform Q) :
    PanOrbitCamera × Transform Q :=
  frames.foldl (fun s f => update_input R f s.1 s.2) (camera, transform)

/-- Follow link component, from `Follower` in `src/follow.rs`; the weak
entity reference is a plain index that may dangle (resolution is a lookup
returning an explicit option). -/
structure Follower where
  followee : Option Nat
  turn_towards : Bool

/-- Desired camera pose the current pose interpolates toward, from
`PanOrbitCameraTarget` used throughout `src/camera.rs`. -/
structure PanOrbitCameraTarget (Q : Type) where
  focus : Vec3
  radius : ℚ
  rotation : Q

/-- Look-at description, from `LookingAt` in `src/camera.rs`. -/
structure LookingAt where
  target : Vec3
  up : Vec3

/-- Modelled from the spec: the constructor `PanOrbitCameraTarget::new` is
not under `src/` (only its callers in `src/camera.rs` are).  Per §3 a
CameraTarget is a desired CameraPose {focus, radius, rotation} and per §4.1
`position = focus + rotation * (0, 0, radius)`, so from a position and a
look-at the focus is the look-at target, the radius is the distance from
position to focus, and the rotation orients the camera from position toward
the target.  The external numeric routines — the square root giving the
distance and the look-at rotation construction — are oracle parameters. -/
def PanOrbitCameraTarget.new {Q : Type} (sqrt : ℚ → ℚ) (lookRot : Vec3 → LookingAt → Q)
    (position : Vec3) (look_at : LookingAt) : PanOrbitCameraTarget Q :=
  { focus := look_at.target
    radius := sqrt (Vec3.length_sq (position - look_at.target))
    rotation := lookRot position look_at }

/-- One step of `follow_move` (`src/camera.rs:274-301`) for one camera:
if the follower has a followee and it resolves to a Followee-tagged entity,
optionally compose the followee's rotation delta onto the target rotation,
then add the followee's translation delta (current minus previous-frame
translation) to both the target focus and the current camera focus, and
rebuild the camera transform.  `resolve` is the ECS lookup
`followee_query.get`, yielding the followee's `Transform` and
`PreviousTransform` or nothing. -/
def follow_move {Q : Type} (R : RotOps Q)
    (resolve : Nat → Option (Transform Q × Transform Q))
    (camera : PanOrbitCamera) (target : PanOrbitCameraTarget Q)
    (transform : Transform Q) (follower : Follower) :
    PanOrbitCamera × PanOrbitCameraTarget Q × Transform Q :=
  match follower.followee with
  | none => (camera, target, transform)
  | some e =>
    match resolve e with
    | none => (camera, target, transform)
    | some (followee_transform, followee_prev_transform) =>
      let target :=
        if follower.turn_towards then
          let delta_rotation :=
            R.mul followee_transform.rotation (R.inv followee_prev_transform.rotation)
          { target with rotation := R.mul delta_rotation target.rotation }
        else target
      let delta_focus := followee_transform.translation - followee_prev_transform.translation
      let target := { target with focus := target.focus + delta_focus }
      let camera := { camera with focus := camera.focus + delta_focus }
      (camera, target, update_position R camera.focus camera.radius transform)

/-- Camera preset, from `CameraPresetSettings` in `src/config.rs`
(`to_vec3s` already applied). -/
structure CameraPresetSettings where
  position : Vec3
  target : Vec3

/-- Follow parameters, from `CameraFollowSettings` in `src/config.rs`. -/
structure CameraFollowSettings where
  distance : ℚ
  height : ℚ
  turn_towards : Bool

/-- Camera configuration, from `CameraSettings` in `src/config.rs`
(the fields `respawn_panorbit` reads). -/
structure CameraSettings where
  presets : List CameraPresetSettings
  follow : CameraFollowSettings

/-- Pose computation of `respawn_panorbit` (`src/camera.rs:195-208`),
returning the new camera position and look-at target.  `sqrt31` is the
value the external math routine `31_f32.sqrt()` returns, and `height` is
the new scene's vertical datum passed by the caller. -/
def respawn_pose (sqrt31 : ℚ) (settings : CameraSettings) (height : ℚ) :
    Vec3 × Vec3 :=
  match settings.presets.head? with
  | some preset =>
    let additional_translate : Vec3 := ⟨0, height, 0⟩
    (preset.position + additional_translate, preset.target + additional_translate)
  | none =>
    let x := settings.follow.distance / 3
    let y := x / 2
    let z := settings.follow.distance * sqrt31 / 6
    let position : Vec3 := ⟨x, y, z⟩
    let additional_translate : Vec3 := ⟨0, height + settings.follow.height, 0⟩
    (position + additional_translate, additional_translate)

/-- One step of `preset_toggle` (`src/camera.rs:216-250`) for one camera:
while a Ctrl key is pressed, a just-pressed digit selects a preset index
(Digit1 first, Digit2 second, so Digit2 wins when both fire); if that
preset exists, a fresh target is built from it and then offset by the
followee's transform when the follower resolves, or by
`Transform::from_translation(camera_target.focus)` (identity rotation)
otherwise, and assigned to the camera target.  `resolve` is the ECS lookup
of the followee's transform; `sqrt` and `lookRot` are the oracles of
`PanOrbitCameraTarget.new`. -/
def preset_toggle {Q : Type} (R : RotOps Q) (sqrt : ℚ → ℚ)
    (lookRot : Vec3 → LookingAt → Q) (ctrl_pressed d1_just d2_just : Bool)
    (presets : List CameraPresetSettings)
    (resolve : Nat → Option (Transform Q))
    (camera_target : PanOrbitCameraTarget Q) (follower : Follower) :
    PanOrbitCameraTarget Q :=
  if ctrl_pressed then
    let preset_idx : Option Nat :=
      if d2_just then some 1 else if d1_just then some 0 else none
    match preset_idx.bind (fun idx => presets[idx]?) with
    | none => camera_target
    | some preset =>
      let additional_transform : Transform Q :=
        match follower.followee.bind resolve with
        | some t => t
        | none => { translation := camera_target.focus, rotation := R.one }
      let target : PanOrbitCameraTarget Q :=
        PanOrbitCameraTarget.new sqrt lookRot preset.position ⟨preset.target, ⟨0, 1, 0⟩⟩
      let target := { target with rotation := R.mul additional_transform.rotation target.rotation }
      let target := { target with focus := target.focus + additional_transform.translation }
      target
  else camera_target

/-- Surface direction, from `Direction` in `src/state/ingame/animation.rs`. -/
inductive Direction where
  | SideA
  | SideB
  | Origin
deriving DecidableEq

/-- Per-surface animation state, from `State` in
`src/state/ingame/animation.rs`. -/
structure State where
  current : Direction
  next : Direction
deriving DecidableEq

/-- Constructor `State::new`. -/
def State.new (current next : Direction) : State :=
  ⟨current, next⟩

/-- Method `State::need_update`: the surface has a pending transition. -/
def State.need_update (s : State) : Bool :=
  decide (s.current ≠ s.next)

/-- Method `State::to_next`: commit the pending transition. -/
def State.to_next (s : State) : State :=
  ⟨s.next, s.next⟩

/-- One active animation of the engine's animation player (bevy
`ActiveAnimation`, an external dependency): its playback speed and seek
time, the only fields the game code touches.  A freshly started animation
has speed `1` and seek time `0` (bevy `ActiveAnimation::default`). -/
structure ActiveAnimation where
  speed : ℚ
  seek_time : ℚ
deriving DecidableEq

/-- Method `ActiveAnimation::is_playback_reversed`: the speed is negative. -/
def ActiveAnimation.is_playback_reversed (a : ActiveAnimation) : Bool :=
  decide (a.speed < 0)

/-- The engine's animation player component (bevy `AnimationPlayer`, an
external dependency): the map from animation node index to its active
animation, if any. -/
structure AnimationPlayer where
  active : Nat → Option ActiveAnimation

/-- Method `AnimationPlayer::is_playing_animation`: the node has an active
animation. -/
def AnimationPlayer.is_playing_animation (p : AnimationPlayer) (idx : Nat) : Bool :=
  (p.active idx).isSome

/-- The active animation `AnimationPlayer::play` hands back: the existing
one when the node is already playing, a fresh default one otherwise
(bevy `play` is `active_animations.entry(node).or_default()`). -/
def AnimationPlayer.entry_or_default (p : AnimationPlayer) (idx : Nat) : ActiveAnimation :=
  (p.active idx).getD ⟨1, 0⟩

/-- Store an active animation back into the player at a node index. -/
def AnimationPlayer.set_anim (p : AnimationPlayer) (idx : Nat) (a : ActiveAnimation) :
    AnimationPlayer :=
  ⟨fun n => if n = idx then some a else p.active n⟩

/-- The clip is active with strictly positive speed: "currently playing
forward". -/
def forward_playing (p : AnimationPlayer) (idx : Nat) : Bool :=
  match p.active idx with
  | some a => decide (0 < a.speed)
  | none => false

/-- Body shared by the `(SideA, Origin | SideB)` and `(SideB, Origin |
SideA)` arms of `switch_rotate_animation`
(`src/state/ingame/animation.rs:361-398`): play the departing side's clip
and, if it is not already reversed, flip the speed sign and seek to
`seek_time + clip_duration`. -/
def switch_reverse_side (clip_duration : Nat → ℚ) (idx : Nat)
    (player : AnimationPlayer) : AnimationPlayer :=
  let animation := player.entry_or_default idx
  let animation :=
    if ¬ animation.is_playback_reversed then
      let animation_start_time := clip_duration idx
      let animation := { animation with speed := -1 * animation.speed }
      { animation with seek_time := animation.seek_time + animation_start_time }
    else animation
  player.set_anim idx animation

/-- The transition step `switch_rotate_animation`
(`src/state/ingame/animation.rs:337-401`) of the per-surface three-state
machine.  `clip_duration` is the duration lookup through the animation
graph and clip assets (`AnimationNodeType::Clip` then `clips.get`, with
`0` when the node is not a clip or the asset is missing, matching
`unwrap_or_default`).  Returns the new state (`None` when the match hits
the final no-op arm, in which case the caller leaves its state unchanged)
together with the updated player. -/
def switch_rotate_animation (clip_duration : Nat → ℚ)
    (side_a_animation_idx side_b_animation_idx : Nat)
    (player : AnimationPlayer) (state : State) :
    Option State × AnimationPlayer :=
  match state.current, state.next with
  | Direction.Origin, Direction.SideA =>
    if ¬ player.is_playing_animation side_b_animation_idx then
      let animation := player.entry_or_default side_a_animation_idx
      let animation :=
        if animation.is_playback_reversed then
          { animation with speed := -1 * animation.speed }
        else animation
      (some state.to_next, player.set_anim side_a_animation_idx animation)
    else (none, player)
  | Direction.Origin, Direction.SideB =>
    if ¬ player.is_playing_animation side_a_animation_idx then
      let animation := player.entry_or_default side_b_animation_idx
      let animation :=
        if animation.is_playback_reversed then
          { animation with speed := -1 * animation.speed }
        else animation
      (some state.to_next, player.set_anim side_b_animation_idx animation)
    else (none, player)
  | Direction.SideA, Direction.Origin =>
    (some (State.new Direction.Origin state.next),
      switch_reverse_side clip_duration side_a_animation_idx player)
  | Direction.SideA, Direction.SideB =>
    (some (State.new Direction.Origin state.next),
      switch_reverse_side clip_duration side_a_animation_idx player)
  | Direction.SideB, Direction.Origin =>
    (some (State.new Direction.Origin state.next),
      switch_reverse_side clip_duration side_b_animation_idx player)
  | Direction.SideB, Direction.SideA =>
    (some (State.new Direction.Origin state.next),
      switch_reverse_side clip_duration side_b_animation_idx player)
  | _, _ => (none, player)

/-- The graph node of the clip a deflected surface is posed by: the SideA
clip when the surface is at SideA, the SideB clip when at SideB (the
Origin value is never reached under the hypotheses that use this
selector; it defaults to the SideA clip). -/
def side_clip_idx (side_a_animation_idx side_b_animation_idx : Nat) :
    Direction → Nat
  | Direction.SideA => side_a_animation_idx
  | Direction.SideB => side_b_animation_idx
  | Direction.Origin => side_a_animation_idx

/-- Engine and key state, from `Thrust` in `src/state/ingame/aircraft.rs`. -/
structure Thrust where
  current : ℚ
  target : ℚ
  max_force : ℚ
  change_speed : ℚ
deriving DecidableEq

/-- Constructor `Thrust::new` (`src/state/ingame/aircraft.rs:49-58`),
embedded literally: `current = 0.0, target = 20.0, max_force = 100.0,
change_speed = 2.0`. -/
def Thrust.new : Thrust :=
  ⟨0, 20, 100, 2⟩

/-- One step of `update_thrust` (`src/state/ingame/aircraft.rs:139-152`)
for one thrust component: step the target up while W/PageUp is held
(clamped to at most `1`), step it down while S/PageDown is held (clamped to
at least `0`), then move `current` by `(target - current) * change_speed *
Δt`. -/
def update_thrust (w_pressed s_pressed : Bool) (dt : ℚ) (thrust : Thrust) : Thrust :=
  let thrust :=
    if w_pressed then { thrust with target := min (thrust.target + dt) 1 } else thrust
  let thrust :=
    if s_pressed then { thrust with target := max (thrust.target - dt) 0 } else thrust
  { thrust with
      current := thrust.current + (thrust.target - thrust.current) * thrust.change_speed * dt }

/-- The thrust-chase behavior the spec claims, named from its words for
comparison with `update_thrust`: `current` moves toward `target` by a
linear ramp at the constant rate `change_speed` per second — it advances by
exactly `change_speed * Δt` toward the target, stopping at the target. -/
def spec_linear_ramp_current (dt : ℚ) (thrust : Thrust) : ℚ :=
  if |thrust.target - thrust.current| ≤ thrust.change_speed * dt then thrust.target
  else if thrust.current < thrust.target then thrust.current + thrust.change_speed * dt
  else thrust.current - thrust.change_speed * dt

/-! Helper lemmas shared by the claim theorems. -/

/-- Componentwise description of `Vec3` addition. -/
theorem Vec3.add_def (a b : Vec3) : a + b = ⟨a.x + b.x, a.y + b.y, a.z + b.z⟩ :=
  rfl

/-- Componentwise description of `Vec3` subtraction. -/
theorem Vec3.sub_def (a b : Vec3) : a - b = ⟨a.x - b.x, a.y - b.y, a.z - b.z⟩ :=
  rfl

/-- The zero `Vec2` componentwise. -/
theorem Vec2.zero_def : (0 : Vec2) = ⟨0, 0⟩ :=
  rfl

/-- First component of the zero `Vec2`. -/
theorem Vec2.x_zero : (0 : Vec2).x = 0 :=
  rfl

/-- Second component of the zero `Vec2`. -/
theorem Vec2.y_zero : (0 : Vec2).y = 0 :=
  rfl

/-- A `Vec2` literal is zero exactly when both components are. -/
theorem Vec2.mk_eq_zero (x y : ℚ) : Vec2.mk x y = 0 ↔ x = 0 ∧ y = 0 := by
  rw [Vec2.zero_def, Vec2.mk.injEq]

/-- Componentwise description of `Vec2` addition. -/
theorem Vec2.add_comps (a b : Vec2) : a + b = ⟨a.x + b.x, a.y + b.y⟩ :=
  rfl

/-- The squared length of the zero `Vec2` is zero. -/
theorem Vec2.length_sq_zero : (0 : Vec2).length_sq = 0 := by
  show Vec2.length_sq ⟨0, 0⟩ = 0
  norm_num [Vec2.length_sq]

/-- The code's branch condition `length_squared() > 0.0` is exactly
"the accumulated delta is nonzero". -/
theorem Vec2.length_sq_pos (v : Vec2) : 0 < v.length_sq ↔ v ≠ 0 := by
  constructor
  · intro h hv
    rw [hv, Vec2.length_sq_zero] at h
    exact lt_irrefl 0 h
  · intro hv
    rcases v with ⟨x, y⟩
    rcases (by
      by_contra hc
      push_neg at hc
      exact hv (by cases hc.1; cases hc.2; rfl) : x ≠ 0 ∨ y ≠ 0) with hx | hy
    · exact add_pos_of_pos_of_nonneg (mul_self_pos.mpr hx) (mul_self_nonneg y)
    · exact add_pos_of_nonneg_of_pos (mul_self_nonneg x) (mul_self_pos.mpr hy)

/-! Claim theorems. -/

/-- C7: the claim says `thrust.target` lies in `[0, 1]` at construction;
`Thrust::new` actually constructs `target = 20.0`, contradicting the code's
own field comment "Целевая тяга (0..1)" — with no throttle key held the
update step then leaves it at `20` forever.  This theorem evaluates the
code at the failing input. -/
theorem thrust_new_target_out_of_range :
    Thrust.new.target = 20 ∧ ¬ Thrust.new.target ≤ 1 := by
  constructor
  · rfl
  · decide

/-- C6 counterexample: the claim says the per-frame thrust update moves
`current` toward `target` by a linear ramp at the constant rate
`change_speed` per second; with `current = 0`, `target = 1/2`,
`change_speed = 2` and `Δt = 1/4` the constant-rate ramp reaches `1/2`
but the code computes `1/4`. -/
theorem update_thrust_not_linear_ramp :
    (update_thrust false false (1/4) ⟨0, 1/2, 100, 2⟩).current = 1/4
      ∧ spec_linear_ramp_current (1/4) ⟨0, 1/2, 100, 2⟩ = 1/2
      ∧ (1/4 : ℚ) ≠ 1/2 := by
  refine ⟨?_, ?_, by norm_num⟩
  · norm_num [update_thrust]
  · norm_num [spec_linear_ramp_current]

/-- C6 (amended): each per-frame thrust update moves `current` toward the
(key-stepped) target proportionally to the remaining gap — the step size is
`(target - current) * change_speed * Δt`, so the gap decays geometrically
by the factor `1 - change_speed * Δt`: a proportional (exponential-type)
chase, not a constant-rate linear ramp. -/
theorem update_thrust_proportional_chase (w_pressed s_pressed : Bool) (dt : ℚ)
    (thrust : Thrust) :
    (update_thrust w_pressed s_pressed dt thrust).current - thrust.current
        = ((update_thrust w_pressed s_pressed dt thrust).target - thrust.current)
          * thrust.change_speed * dt
      ∧ (update_thrust w_pressed s_pressed dt thrust).target
          - (update_thrust w_pressed s_pressed dt thrust).current
        = ((update_thrust w_pressed s_pressed dt thrust).target - thrust.current)
          * (1 - thrust.change_speed * dt) := by
  cases w_pressed <;> cases s_pressed <;>
    simp only [update_thrust, Bool.false_eq_true, if_false, if_true] <;>
    constructor <;> ring

/-- Storing an animation at one node leaves the others untouched. -/
theorem forward_playing_set_anim_ne (p : AnimationPlayer) (i j : Nat)
    (a : ActiveAnimation) (h : j ≠ i) :
    forward_playing (p.set_anim i a) j = forward_playing p j := by
  simp [forward_playing, AnimationPlayer.set_anim, h]

/-- After `switch_reverse_side` the touched clip is never playing forward:
a forward-playing clip gets its speed negated, an already reversed clip is
left reversed. -/
theorem forward_playing_switch_reverse_self (clip_duration : Nat → ℚ) (i : Nat)
    (p : AnimationPlayer) :
    forward_playing (switch_reverse_side clip_duration i p) i = false := by
  unfold switch_reverse_side
  rcases ha : p.entry_or_default i with ⟨sp, t⟩
  by_cases hrev : sp < 0
  · simp [forward_playing, AnimationPlayer.set_anim, ha,
      ActiveAnimation.is_playback_reversed, hrev, not_lt.mpr (le_of_lt hrev)]
  · simp only [ha, ActiveAnimation.is_playback_reversed, decide_eq_true_eq, hrev,
      not_false_iff, if_true]
    have hsp : 0 ≤ sp := not_lt.mp hrev
    simp [forward_playing, AnimationPlayer.set_anim]
    all_goals linarith

/-- `switch_reverse_side` does not touch other nodes. -/
theorem forward_playing_switch_reverse_ne (clip_duration : Nat → ℚ) (i j : Nat)
    (p : AnimationPlayer) (h : j ≠ i) :
    forward_playing (switch_reverse_side clip_duration i p) j = forward_playing p j := by
  unfold switch_reverse_side
  exact forward_playing_set_anim_ne p i j _ h

/-- A clip with no active animation is not playing forward. -/
theorem forward_playing_of_not_playing (p : AnimationPlayer) (i : Nat)
    (h : p.is_playing_animation i = false) : forward_playing p i = false := by
  unfold AnimationPlayer.is_playing_animation at h
  unfold forward_playing
  rcases hp : p.active i with _ | a
  · rfl
  · rw [hp] at h
    simp at h

/-- After storing at node `i`, nodes `i` and `j ≠ i` are not both forward
when `j` was inactive (used for the `Origin→SideA` arm). -/
theorem forward_playing_set_anim_not_both_right (p : AnimationPlayer) (i j : Nat)
    (a : ActiveAnimation) (h : j ≠ i) (hj : p.is_playing_animation j = false) :
    ¬ (forward_playing (p.set_anim i a) i = true
        ∧ forward_playing (p.set_anim i a) j = true) := by
  intro hboth
  have hjf := forward_playing_of_not_playing p j hj
  rw [forward_playing_set_anim_ne p i j a h, hjf] at hboth
  exact Bool.false_ne_true hboth.2

/-- Mirror image of the previous lemma (used for the `Origin→SideB` arm). -/
theorem forward_playing_set_anim_not_both_left (p : AnimationPlayer) (i j : Nat)
    (a : ActiveAnimation) (h : j ≠ i) (hj : p.is_playing_animation j = false) :
    ¬ (forward_playing (p.set_anim i a) j = true
        ∧ forward_playing (p.set_anim i a) i = true) := by
  intro hboth
  have hjf := forward_playing_of_not_playing p j hj
  rw [forward_playing_set_anim_ne p i j a h, hjf] at hboth
  exact Bool.false_ne_true hboth.1

/-- After `switch_reverse_side` at node `i`, nodes `i` and `j` are not both
forward (the reversed clip in first position). -/
theorem switch_reverse_not_both_left (clip_duration : Nat → ℚ) (i j : Nat)
    (p : AnimationPlayer) :
    ¬ (forward_playing (switch_reverse_side clip_duration i p) i = true
        ∧ forward_playing (switch_reverse_side clip_duration i p) j = true) := by
  intro hboth
  rw [forward_playing_switch_reverse_self] at hboth
  exact Bool.false_ne_true hboth.1

/-- After `switch_reverse_side` at node `i`, nodes `j` and `i` are not both
forward (the reversed clip in second position). -/
theorem switch_reverse_not_both_right (clip_duration : Nat → ℚ) (i j : Nat)
    (p : AnimationPlayer) :
    ¬ (forward_playing (switch_reverse_side clip_duration i p) j = true
        ∧ forward_playing (switch_reverse_side clip_duration i p) i = true) := by
  intro hboth
  rw [forward_playing_switch_reverse_self] at hboth
  exact Bool.false_ne_true hboth.2

/-- C2: the transition step never puts both side clips into forward
playback: if the two side clips are distinct graph nodes and they were not
both playing forward before a `switch_rotate_animation` step, they are not
both playing forward after it; and a requested `Origin→SideA`
(resp. `Origin→SideB`) transition whose precondition fails — the opposite
side's clip is currently playing — is a no-op returning `None` and leaving
the animation player unchanged. -/
theorem switch_rotate_preserves_exclusion (clip_duration : Nat → ℚ)
    (ia ib : Nat) (player : AnimationPlayer) (state : State)
    (hne : ia ≠ ib)
    (hinv : ¬ (forward_playing player ia = true ∧ forward_playing player ib = true)) :
    ¬ (forward_playing
          (switch_rotate_animation clip_duration ia ib player state).2 ia = true
        ∧ forward_playing
          (switch_rotate_animation clip_duration ia ib player state).2 ib = true) := by
  obtain ⟨c, n⟩ := state
  cases c <;> cases n <;> simp only [switch_rotate_animation]
  case SideA.SideA => exact hinv
  case SideA.SideB => exact switch_reverse_not_both_left clip_duration ia ib player
  case SideA.Origin => exact switch_reverse_not_both_left clip_duration ia ib player
  case SideB.SideA => exact switch_reverse_not_both_right clip_duration ib ia player
  case SideB.SideB => exact hinv
  case SideB.Origin => exact switch_reverse_not_both_right clip_duration ib ia player
  case Origin.SideA =>
    cases hb : player.is_playing_animation ib with
    | true =>
      rw [if_neg (by simp)]
      exact hinv
    | false =>
      rw [if_pos (by simp)]
      exact forward_playing_set_anim_not_both_right player ia ib _ (Ne.symm hne) hb
  case Origin.SideB =>
    cases ha : player.is_playing_animation ia with
    | true =>
      rw [if_neg (by simp)]
      exact hinv
    | false =>
      rw [if_pos (by simp)]
      exact forward_playing_set_anim_not_both_left player ib ia _ hne ha
  case Origin.Origin => exact hinv

/-- A requested `Origin→SideA` transition with the side-B clip playing is
refused: the match guard fails and the final arm returns `None` with the
player untouched. -/
theorem switch_rotate_noop_origin_side_a (clip_duration : Nat → ℚ)
    (ia ib : Nat) (player : AnimationPlayer)
    (hp : player.is_playing_animation ib = true) :
    switch_rotate_animation clip_duration ia ib player ⟨Direction.Origin, Direction.SideA⟩
      = (none, player) := by
  simp [switch_rotate_animation, hp]

/-- A requested `Origin→SideB` transition with the side-A clip playing is
refused: the match guard fails and the final arm returns `None` with the
player untouched. -/
theorem switch_rotate_noop_origin_side_b (clip_duration : Nat → ℚ)
    (ia ib : Nat) (player : AnimationPlayer)
    (hp : player.is_playing_animation ia = true) :
    switch_rotate_animation clip_duration ia ib player ⟨Direction.Origin, Direction.SideB⟩
      = (none, player) := by
  simp [switch_rotate_animation, hp]

/-- C2: the transition step never puts both side clips into forward
playback: if the two side clips are distinct graph nodes and they were not
both playing forward before a `switch_rotate_animation` step, they are not
both playing forward after it; and a requested `Origin→SideA`
(resp. `Origin→SideB`) transition whose precondition fails — the opposite
side's clip is currently playing — is a no-op returning `None` (so the
caller keeps the surface state) and leaving the animation player
unchanged. -/
theorem switch_rotate_mutual_exclusion (clip_duration : Nat → ℚ)
    (side_a_animation_idx side_b_animation_idx : Nat)
    (player : AnimationPlayer) (state : State)
    (hne : side_a_animation_idx ≠ side_b_animation_idx)
    (hinv : ¬ (forward_playing player side_a_animation_idx = true
        ∧ forward_playing player side_b_animation_idx = true)) :
    (¬ (forward_playing
          (switch_rotate_animation clip_duration side_a_animation_idx
            side_b_animation_idx player state).2 side_a_animation_idx = true
        ∧ forward_playing
          (switch_rotate_animation clip_duration side_a_animation_idx
            side_b_animation_idx player state).2 side_b_animation_idx = true))
    ∧ (state = ⟨Direction.Origin, Direction.SideA⟩ →
        player.is_playing_animation side_b_animation_idx = true →
        switch_rotate_animation clip_duration side_a_animation_idx
          side_b_animation_idx player state = (none, player))
    ∧ (state = ⟨Direction.Origin, Direction.SideB⟩ →
        player.is_playing_animation side_a_animation_idx = true →
        switch_rotate_animation clip_duration side_a_animation_idx
          side_b_animation_idx player state = (none, player)) :=
  ⟨switch_rotate_preserves_exclusion clip_duration side_a_animation_idx
      side_b_animation_idx player state hne hinv,
   fun hs hp => by
     subst hs
     exact switch_rotate_noop_origin_side_a clip_duration side_a_animation_idx
       side_b_animation_idx player hp,
   fun hs hp => by
     subst hs
     exact switch_rotate_noop_origin_side_b clip_duration side_a_animation_idx
       side_b_animation_idx player hp⟩

/-- C2 witness: with side clips at nodes `0 ≠ 1`, node `1` playing forward
and node `0` inactive, the requested `Origin→SideA` transition is refused
and the player is unchanged. -/
theorem switch_rotate_mutual_exclusion_witness :
    switch_rotate_animation (fun _ => 2) 0 1
        ⟨fun n => if n = 1 then some ⟨1, 0⟩ else none⟩
        ⟨Direction.Origin, Direction.SideA⟩
      = (none, ⟨fun n => if n = 1 then some ⟨1, 0⟩ else none⟩) :=
  (switch_rotate_mutual_exclusion (fun _ => 2) 0 1
      ⟨fun n => if n = 1 then some ⟨1, 0⟩ else none⟩
      ⟨Direction.Origin, Direction.SideA⟩
      (by decide) (by decide)).2.1 rfl (by decide)

/-- C1 counterexample: the claim says a `SideA→Origin` transition with the
SideA clip playing forward at seek time `t = 1/2` of a clip of duration `2`
resumes reverse playback at the mirrored time `duration - t = 3/2`; the
code instead seeks to `seek_time + duration = 5/2` (it flips the speed sign
and adds the clip duration to the current seek time). -/
theorem switch_rotate_reverse_seek_not_mirrored :
    ((switch_rotate_animation (fun _ => 2) 0 1
        ⟨fun n => if n = 0 then some ⟨1, 1/2⟩ else none⟩
        ⟨Direction.SideA, Direction.Origin⟩).2.active 0)
      = some ⟨-1, 5/2⟩
    ∧ (5/2 : ℚ) ≠ 2 - 1/2 := by
  constructor
  · norm_num [switch_rotate_animation, switch_reverse_side,
      AnimationPlayer.entry_or_default, AnimationPlayer.set_anim,
      ActiveAnimation.is_playback_reversed]
  · norm_num

/-- C1 (amended): for a surface deflected to SideA or SideB whose
deflecting clip (the SideA clip at SideA, the SideB clip at SideB) is
currently playing forward at speed `sp > 0` and seek time `t`, any
requested transition away from the current side (`SideA→Origin`,
`SideA→SideB`, and symmetrically `SideB→Origin`, `SideB→SideA`) makes that
clip play in reverse (speed negated to `-sp`, so `-1` for a clip playing
at the default speed `1`) positioned at seek time `t + duration` — the
code jumps the seek position forward by one clip duration, not to the
mirrored time `duration - t` — and the state becomes `(Origin, next)`. -/
theorem switch_rotate_reverse_seek (clip_duration : Nat → ℚ)
    (side_a_animation_idx side_b_animation_idx : Nat)
    (player : AnimationPlayer) (state : State) (sp t : ℚ)
    (hcur : state.current = Direction.SideA ∨ state.current = Direction.SideB)
    (hnext : state.next ≠ state.current)
    (hplay : player.active
        (side_clip_idx side_a_animation_idx side_b_animation_idx state.current)
      = some ⟨sp, t⟩)
    (hfwd : 0 < sp) :
    (switch_rotate_animation clip_duration side_a_animation_idx
        side_b_animation_idx player state).1
      = some (State.new Direction.Origin state.next)
    ∧ ((switch_rotate_animation clip_duration side_a_animation_idx
        side_b_animation_idx player state).2.active
          (side_clip_idx side_a_animation_idx side_b_animation_idx state.current))
      = some ⟨-1 * sp,
          t + clip_duration
            (side_clip_idx side_a_animation_idx side_b_animation_idx state.current)⟩ := by
  obtain ⟨c, n⟩ := state
  dsimp only at hcur hnext hplay ⊢
  have hsp : ¬ sp < 0 := not_lt.mpr (le_of_lt hfwd)
  rcases hcur with h | h <;> subst h <;>
    simp only [side_clip_idx] at hplay ⊢ <;> cases n <;>
    first
    | exact absurd rfl hnext
    | (constructor <;>
        simp [switch_rotate_animation, switch_reverse_side, State.new,
          AnimationPlayer.entry_or_default, AnimationPlayer.set_anim, hplay,
          ActiveAnimation.is_playback_reversed, hsp])

/-- C1 witness: the amended theorem evaluated on the spec's fixture — clip
duration `2`, forward playback at seek time `1/2` — for both halves: a
`SideA→Origin` transition reverses the SideA clip at seek time `5/2` with
speed `-1`, and a `SideB→SideA` transition does the same to the SideB
clip; in each case the state commits to `(Origin, next)`. -/
theorem switch_rotate_reverse_seek_witness :
    ((switch_rotate_animation (fun _ => 2) 0 1
        ⟨fun n => if n = 0 then some ⟨1, 1/2⟩ else none⟩
        ⟨Direction.SideA, Direction.Origin⟩).1
      = some (State.new Direction.Origin Direction.Origin)
    ∧ ((switch_rotate_animation (fun _ => 2) 0 1
        ⟨fun n => if n = 0 then some ⟨1, 1/2⟩ else none⟩
        ⟨Direction.SideA, Direction.Origin⟩).2.active 0)
      = some ⟨-1 * 1, 1/2 + 2⟩)
    ∧ ((switch_rotate_animation (fun _ => 2) 0 1
        ⟨fun n => if n = 1 then some ⟨1, 1/2⟩ else none⟩
        ⟨Direction.SideB, Direction.SideA⟩).1
      = some (State.new Direction.Origin Direction.SideA)
    ∧ ((switch_rotate_animation (fun _ => 2) 0 1
        ⟨fun n => if n = 1 then some ⟨1, 1/2⟩ else none⟩
        ⟨Direction.SideB, Direction.SideA⟩).2.active 1)
      = some ⟨-1 * 1, 1/2 + 2⟩) :=
  ⟨switch_rotate_reverse_seek (fun _ => 2) 0 1
      ⟨fun n => if n = 0 then some ⟨1, 1/2⟩ else none⟩
      ⟨Direction.SideA, Direction.Origin⟩ 1 (1/2)
      (Or.inl rfl) (by decide) rfl (by norm_num),
   switch_rotate_reverse_seek (fun _ => 2) 0 1
      ⟨fun n => if n = 1 then some ⟨1, 1/2⟩ else none⟩
      ⟨Direction.SideB, Direction.SideA⟩ 1 (1/2)
      (Or.inr rfl) (by decide) rfl (by norm_num)⟩

/-- C3: for a camera whose follower has a followee resolving to a
Followee-tagged entity, one `follow_move` step adds the followee's
translation delta — current transform translation minus previous-frame
transform translation — to both the smoothed current pose's focus and the
target's focus: each is incremented by exactly the delta, never replaced by
the followee's absolute position. -/
theorem follow_move_delta_additive {Q : Type} (R : RotOps Q)
    (resolve : Nat → Option (Transform Q × Transform Q))
    (camera : PanOrbitCamera) (target : PanOrbitCameraTarget Q)
    (transform : Transform Q) (follower : Follower) (e : Nat)
    (ft fpt : Transform Q)
    (hf : follower.followee = some e)
    (hr : resolve e = some (ft, fpt)) :
    (follow_move R resolve camera target transform follower).1.focus
        = camera.focus + (ft.translation - fpt.translation)
      ∧ (follow_move R resolve camera target transform follower).2.1.focus
        = target.focus + (ft.translation - fpt.translation) := by
  simp only [follow_move, hf, hr]
  refine ⟨trivial, ?_⟩
  dsimp only
  split <;> rfl

/-- C3 witness: a followee moving from `(0,0,0)` to `(5,0,0)` turns a
camera target focus of `(2,1,0)` into `(7,1,0)` and shifts the current
camera focus by the same `(5,0,0)` delta. -/
theorem follow_move_delta_additive_witness :
    (follow_move trivialRot (fun _ => some (⟨⟨5, 0, 0⟩, ()⟩, ⟨⟨0, 0, 0⟩, ()⟩))
        ⟨⟨0, 0, 0⟩, 5, false⟩ ⟨⟨2, 1, 0⟩, 5, ()⟩ ⟨⟨0, 0, 0⟩, ()⟩
        ⟨some 0, false⟩).2.1.focus = ⟨7, 1, 0⟩
    ∧ (follow_move trivialRot (fun _ => some (⟨⟨5, 0, 0⟩, ()⟩, ⟨⟨0, 0, 0⟩, ()⟩))
        ⟨⟨0, 0, 0⟩, 5, false⟩ ⟨⟨2, 1, 0⟩, 5, ()⟩ ⟨⟨0, 0, 0⟩, ()⟩
        ⟨some 0, false⟩).1.focus = ⟨5, 0, 0⟩ := by
  have h := follow_move_delta_additive trivialRot
    (fun _ => some (⟨⟨5, 0, 0⟩, ()⟩, ⟨⟨0, 0, 0⟩, ()⟩))
    ⟨⟨0, 0, 0⟩, 5, false⟩ ⟨⟨2, 1, 0⟩, 5, ()⟩ ⟨⟨0, 0, 0⟩, ()⟩
    ⟨some 0, false⟩ 0 ⟨⟨5, 0, 0⟩, ()⟩ ⟨⟨0, 0, 0⟩, ()⟩ rfl rfl
  refine ⟨?_, ?_⟩
  · rw [h.2]
    norm_num [Vec3.add_def, Vec3.sub_def]
  · rw [h.1]
    norm_num [Vec3.add_def, Vec3.sub_def]

/-- C5 counterexample: with no preset configured, follow distance `15`,
follow height `5` (the configuration defaults) and scene vertical datum
`height = 0`, the code's look-at focus is `(0, 5, 0)` — the claimed
`(0, height, 0) = (0, 0, 0)` is wrong because the code also adds the
configured `follow.height` to the vertical offset. -/
theorem respawn_pose_focus_counterexample :
    (respawn_pose 0 ⟨[], ⟨15, 5, false⟩⟩ 0).2 = ⟨0, 5, 0⟩
      ∧ ((⟨0, 5, 0⟩ : Vec3) ≠ ⟨0, 0, 0⟩) := by
  constructor
  · norm_num [respawn_pose, Vec3.add_def]
  · intro h
    have := congrArg Vec3.y h
    norm_num at this

/-- C5 (amended): when the camera is respawned with no configured preset,
the spawn pose is computed from the follow-distance parameter as
`x = distance/3`, `y = x/2`, `z = distance*sqrt(31)/6`, giving position
`(x, h + y, z)` and focus `(0, h, 0)` where `h = height + follow.height` is
the new scene's vertical datum plus the configured follow height — not the
datum alone. -/
theorem respawn_pose_default_formula (sqrt31 : ℚ) (settings : CameraSettings)
    (height : ℚ) (h : settings.presets = []) :
    respawn_pose sqrt31 settings height
      = (⟨settings.follow.distance / 3,
          settings.follow.distance / 6 + (height + settings.follow.height),
          settings.follow.distance * sqrt31 / 6⟩,
         ⟨0, height + settings.follow.height, 0⟩) := by
  rw [respawn_pose, h]
  dsimp only [List.head?]
  rw [Prod.mk.injEq]
  constructor
  · rw [Vec3.add_def]
    norm_num
    ring
  · rfl

/-- C5 witness: the amended formula evaluated at `sqrt31 = 6`,
distance `12`, follow height `5`, scene datum `100`. -/
theorem respawn_pose_default_formula_witness :
    respawn_pose 6 ⟨[], ⟨12, 5, false⟩⟩ 100 = (⟨4, 107, 12⟩, ⟨0, 105, 0⟩) := by
  have h := respawn_pose_default_formula 6 ⟨[], ⟨12, 5, false⟩⟩ 100 rfl
  rw [h]
  norm_num

/-- C10: when preset recall fires while the camera has no followee, or the
stored followee reference does not resolve, the preset is still applied
with a fallback offset rather than skipped: the new target's focus is the
preset-derived focus plus the camera's previous target focus, and the
preset-derived rotation and radius are taken unchanged (the fallback
transform contributes an identity rotation delta), so presets are never
applied world-absolute. -/
theorem preset_toggle_fallback_offset {Q : Type} (R : RotOps Q) (sqrt : ℚ → ℚ)
    (lookRot : Vec3 → LookingAt → Q) (d1_just d2_just : Bool)
    (presets : List CameraPresetSettings) (resolve : Nat → Option (Transform Q))
    (camera_target : PanOrbitCameraTarget Q) (follower : Follower)
    (i : Nat) (preset : CameraPresetSettings)
    (hidx : (if d2_just then some 1 else if d1_just then some 0 else none) = some i)
    (hpre : presets[i]? = some preset)
    (hfol : follower.followee.bind resolve = none) :
    (preset_toggle R sqrt lookRot true d1_just d2_just presets resolve
        camera_target follower).focus
      = (PanOrbitCameraTarget.new sqrt lookRot preset.position
          ⟨preset.target, ⟨0, 1, 0⟩⟩ : PanOrbitCameraTarget Q).focus
        + camera_target.focus
    ∧ (preset_toggle R sqrt lookRot true d1_just d2_just presets resolve
        camera_target follower).rotation
      = (PanOrbitCameraTarget.new sqrt lookRot preset.position
          ⟨preset.target, ⟨0, 1, 0⟩⟩ : PanOrbitCameraTarget Q).rotation
    ∧ (preset_toggle R sqrt lookRot true d1_just d2_just presets resolve
        camera_target follower).radius
      = (PanOrbitCameraTarget.new sqrt lookRot preset.position
          ⟨preset.target, ⟨0, 1, 0⟩⟩ : PanOrbitCameraTarget Q).radius := by
  rw [preset_toggle]
  rw [if_pos rfl]
  rw [hidx]
  simp only [Option.some_bind, hpre, hfol]
  exact ⟨trivial, R.one_mul _, trivial⟩

/-- C10 witness: Ctrl plus Digit1 with no followee applies preset 0 —
target `(4,5,6)` — offset by the previous target focus `(2,1,0)`, giving
focus `(6,6,6)` with the preset-derived rotation and radius unchanged. -/
theorem preset_toggle_fallback_offset_witness :
    (preset_toggle trivialRot (fun q => q) (fun _ _ => ()) true true false
        [⟨⟨1, 2, 3⟩, ⟨4, 5, 6⟩⟩] (fun _ => none) ⟨⟨2, 1, 0⟩, 5, ()⟩
        ⟨none, false⟩).focus = ⟨6, 6, 6⟩ := by
  have h := preset_toggle_fallback_offset trivialRot (fun q => q) (fun _ _ => ())
    true false [⟨⟨1, 2, 3⟩, ⟨4, 5, 6⟩⟩] (fun _ => none) ⟨⟨2, 1, 0⟩, 5, ()⟩
    ⟨none, false⟩ 0 ⟨⟨1, 2, 3⟩, ⟨4, 5, 6⟩⟩ rfl rfl rfl
  rw [h.1]
  norm_num [PanOrbitCameraTarget.new, Vec3.add_def]

/-- The radius after one `update_input` step is either untouched (orbit,
pan or idle frame) or the floor-clamped zoom value. -/
theorem update_input_radius_cases {Q : Type} (R : RotOps Q) (f : Frame)
    (camera : PanOrbitCamera) (transform : Transform Q) :
    (update_input R f camera transform).1.radius = camera.radius
    ∨ (update_input R f camera transform).1.radius
      = max (camera.radius - accum_scroll f * camera.radius * (1/5)) (1/20) := by
  unfold update_input
  dsimp only
  split_ifs <;> first | (left; rfl) | (right; rfl)

/-- One `update_input` step keeps the radius at or above the `0.05`
floor. -/
theorem update_input_radius_floor_step {Q : Type} (R : RotOps Q) (f : Frame)
    (camera : PanOrbitCamera) (transform : Transform Q)
    (h : 1/20 ≤ camera.radius) :
    1/20 ≤ (update_input R f camera transform).1.radius := by
  rcases update_input_radius_cases R f camera transform with hc | hc <;> rw [hc]
  · exact h
  · exact le_max_right _ _

/-- C4: for a camera whose radius is at least `0.05 = 1/20`, the radius
never drops below `0.05` after any sequence of input frames (in particular
any sequence of zoom scroll inputs): the floor clamp is applied after each
zoom adjustment and every other branch leaves the radius unchanged. -/
theorem update_input_radius_floor {Q : Type} (R : RotOps Q) (frames : List Frame)
    (camera : PanOrbitCamera) (transform : Transform Q)
    (h : 1/20 ≤ camera.radius) :
    1/20 ≤ (update_input_seq R frames camera transform).1.radius := by
  induction frames generalizing camera transform with
  | nil => simpa [update_input_seq] using h
  | cons f fs ih =>
    have hstep := update_input_radius_floor_step R f camera transform h
    have htail := ih (update_input R f camera transform).1
      (update_input R f camera transform).2 hstep
    simpa [update_input_seq] using htail

/-- C4 witness: starting from radius `10` and zooming in hard (scroll
`100`), the resulting radius still satisfies the floor. -/
theorem update_input_radius_floor_witness :
    1/20 ≤ (update_input_seq trivialRot
        [⟨false, false, false, false, [], [100], ⟨800, 600⟩, none⟩]
        ⟨⟨0, 0, 0⟩, 10, false⟩ ⟨⟨0, 0, 0⟩, ()⟩).1.radius :=
  update_input_radius_floor trivialRot
    [⟨false, false, false, false, [], [100], ⟨800, 600⟩, none⟩]
    ⟨⟨0, 0, 0⟩, 10, false⟩ ⟨⟨0, 0, 0⟩, ()⟩ (by norm_num)

/-- C8: a single input step processing scroll wheel value `-1` with radius
`10` yields radius exactly `12`: `radius -= scroll * radius * 0.2` gives
`10 - (-1 * 10 * 1/5) = 12`, and the `0.05` floor clamp leaves it. -/
theorem update_input_zoom_scenario {Q : Type} (R : RotOps Q)
    (camera : PanOrbitCamera) (transform : Transform Q)
    (h : camera.radius = 10) :
    (update_input R ⟨false, false, false, false, [], [-1], ⟨800, 600⟩, none⟩
        camera transform).1.radius = 12 := by
  unfold update_input
  have h1 : accum_rotation ⟨false, false, false, false, [], [-1], ⟨800, 600⟩, none⟩ = 0 := rfl
  have h2 : accum_pan ⟨false, false, false, false, [], [-1], ⟨800, 600⟩, none⟩ = 0 := rfl
  have h3 : accum_scroll ⟨false, false, false, false, [], [-1], ⟨800, 600⟩, none⟩ = -1 := by
    simp [accum_scroll]
  dsimp only
  rw [h1, h2, h3, Vec2.length_sq_zero]
  rw [if_neg (lt_irrefl 0), if_neg (lt_irrefl 0)]
  rw [if_pos (show (0 : ℚ) < |(-1 : ℚ)| by norm_num)]
  dsimp only
  rw [if_neg (by simp)]
  rw [h]
  rw [show (10 : ℚ) - -1 * 10 * (1/5) = 12 by norm_num]
  rw [max_eq_left (by norm_num)]

/-- C8 witness: the scenario evaluated on a fully concrete camera. -/
theorem update_input_zoom_scenario_witness :
    (update_input trivialRot ⟨false, false, false, false, [], [-1], ⟨800, 600⟩, none⟩
        ⟨⟨0, 0, 0⟩, 10, false⟩ ⟨⟨0, 0, 0⟩, ()⟩).1.radius = 12 :=
  update_input_zoom_scenario trivialRot ⟨⟨0, 0, 0⟩, 10, false⟩ ⟨⟨0, 0, 0⟩, ()⟩ rfl

/-- C9: within one `update_input` frame the three input modes are mutually
exclusive with priority orbit > pan > zoom: a nonzero accumulated orbit
delta leaves radius and focus unchanged (pan and scroll are discarded); pan
is applied only when the orbit delta is zero, and even then leaves the
radius unchanged; the scroll zoom formula is applied only when both the
orbit and pan deltas are zero — so scrolling while orbiting changes
nothing about the radius. -/
theorem update_input_mode_priority {Q : Type} (R : RotOps Q) (f : Frame)
    (camera : PanOrbitCamera) (transform : Transform Q) :
    (accum_rotation f ≠ 0 →
      (update_input R f camera transform).1.radius = camera.radius
      ∧ (update_input R f camera transform).1.focus = camera.focus)
    ∧ (accum_rotation f = 0 → accum_pan f ≠ 0 →
      (update_input R f camera transform).1.radius = camera.radius)
    ∧ (accum_rotation f = 0 → accum_pan f = 0 → accum_scroll f ≠ 0 →
      (update_input R f camera transform).1.radius
        = max (camera.radius - accum_scroll f * camera.radius * (1/5)) (1/20)) := by
  refine ⟨?_, ?_, ?_⟩
  · intro hrot
    unfold update_input
    dsimp only
    rw [if_pos ((Vec2.length_sq_pos _).mpr hrot)]
    constructor <;> (split <;> rfl)
  · intro hrot0 hpan
    unfold update_input
    dsimp only
    rw [hrot0, Vec2.length_sq_zero]
    rw [if_neg (lt_irrefl 0)]
    rw [if_pos ((Vec2.length_sq_pos _).mpr hpan)]
    split <;> rfl
  · intro hrot0 hpan0 hscroll
    unfold update_input
    dsimp only
    rw [hrot0, hpan0, Vec2.length_sq_zero]
    rw [if_neg (lt_irrefl 0), if_neg (lt_irrefl 0)]
    rw [if_pos (abs_pos.mpr hscroll)]
    split <;> rfl

/-- C9 witness: an orbit drag with a simultaneous scroll leaves the radius
and focus unchanged; a pan drag with a scroll leaves the radius unchanged;
a pure scroll applies the zoom formula. -/
theorem update_input_mode_priority_witness :
    ((update_input trivialRot ⟨true, false, false, false, [⟨1, 0⟩], [-1], ⟨800, 600⟩, none⟩
        ⟨⟨0, 0, 0⟩, 7, false⟩ ⟨⟨0, 0, 0⟩, ()⟩).1.radius = 7
      ∧ (update_input trivialRot ⟨true, false, false, false, [⟨1, 0⟩], [-1], ⟨800, 600⟩, none⟩
        ⟨⟨0, 0, 0⟩, 7, false⟩ ⟨⟨0, 0, 0⟩, ()⟩).1.focus = ⟨0, 0, 0⟩)
    ∧ (update_input trivialRot ⟨false, true, false, false, [⟨1, 0⟩], [-1], ⟨800, 600⟩, none⟩
        ⟨⟨0, 0, 0⟩, 7, false⟩ ⟨⟨0, 0, 0⟩, ()⟩).1.radius = 7
    ∧ (update_input trivialRot ⟨false, false, false, false, [], [-1], ⟨800, 600⟩, none⟩
        ⟨⟨0, 0, 0⟩, 7, false⟩ ⟨⟨0, 0, 0⟩, ()⟩).1.radius
      = max ((7 : ℚ) - accum_scroll ⟨false, false, false, false, [], [-1], ⟨800, 600⟩, none⟩
          * 7 * (1/5)) (1/20) :=
  ⟨(update_input_mode_priority trivialRot
      ⟨true, false, false, false, [⟨1, 0⟩], [-1], ⟨800, 600⟩, none⟩
      ⟨⟨0, 0, 0⟩, 7, false⟩ ⟨⟨0, 0, 0⟩, ()⟩).1
      (by norm_num [accum_rotation, Vec2.add_comps, Vec2.x_zero, Vec2.y_zero, Vec2.mk_eq_zero]),
   (update_input_mode_priority trivialRot
      ⟨false, true, false, false, [⟨1, 0⟩], [-1], ⟨800, 600⟩, none⟩
      ⟨⟨0, 0, 0⟩, 7, false⟩ ⟨⟨0, 0, 0⟩, ()⟩).2.1 rfl
      (by norm_num [accum_pan, Vec2.add_comps, Vec2.x_zero, Vec2.y_zero, Vec2.mk_eq_zero]),
   (update_input_mode_priority trivialRot
      ⟨false, false, false, false, [], [-1], ⟨800, 600⟩, none⟩
      ⟨⟨0, 0, 0⟩, 7, false⟩ ⟨⟨0, 0, 0⟩, ()⟩).2.2 rfl rfl (by norm_num [accum_scroll])⟩

end Checkmate
